import Mathlib

/-
Verification development for the Luminor brand-intelligence application
(src/Luminor.py).  The Python source is shallowly embedded: pure helpers
become Lean functions, the SQLite tables become lists of typed rows with
each CRUD helper an explicit state transformer, and the OpenAI bridge is
modelled as a function of the single API outcome (the one network call the
code makes).  Machine floats that the code merely stores or copies are
modelled as rationals.
-/

namespace Luminor

/-! ## String primitives

`pyLower` models Python's `str.lower()` (exact on the ASCII text used by
the brand table; non-ASCII case folding is out of scope).  `pyIn nee hay`
models Python's substring test `nee in hay`. -/

/-- Python `str.lower()`: character-wise lower-casing. -/
def pyLower (s : String) : String :=
  String.mk (s.toList.map Char.toLower)

/-- Contiguous-substring test on character lists: does `nee` occur inside
`hay`?  The empty needle occurs everywhere, as in Python. -/
def containsSub : List Char → List Char → Bool
  | [], nee => nee.isEmpty
  | c :: t, nee => nee.isPrefixOf (c :: t) || containsSub t nee

/-- Python's `nee in hay` membership test on strings. -/
def pyIn (nee hay : String) : Bool :=
  containsSub hay.toList nee.toList

/-! ## Static brand table

`BRAND_DATABASE` in src/Luminor.py is a dict whose `.values()` iterate in
definition order; it is embedded as a list in that order.  Of each record
the embedding carries the fields that the modelled operations read —
`id`, `name`, `keywords` (`find_brand_by_name`) — the purely descriptive
fields (scores, offers, stores, slogans, …) are display-only. -/

structure Brand where
  id : String
  name : String
  keywords : List String
deriving DecidableEq, Repr

/-- The sentinel record `BRAND_DATABASE['unknown']`. -/
def unknownBrand : Brand :=
  { id := "unknown", name := "Unknown Brand", keywords := [] }

/-- The static brand table, in the dict's definition order. -/
def BRAND_DATABASE : List Brand := [
  { id := "nike", name := "Nike",
    keywords := ["swoosh", "just do it", "athletic", "sports"] },
  { id := "apple", name := "Apple",
    keywords := ["apple", "iphone", "mac", "ipad", "bitten apple"] },
  { id := "coca-cola", name := "Coca-Cola",
    keywords := ["coca cola", "coke", "red", "script"] },
  { id := "adidas", name := "Adidas",
    keywords := ["three stripes", "trefoil", "performance"] },
  { id := "samsung", name := "Samsung",
    keywords := ["samsung", "galaxy", "smartphone"] },
  { id := "starbucks", name := "Starbucks",
    keywords := ["starbucks", "coffee", "siren", "green"] },
  { id := "microsoft", name := "Microsoft",
    keywords := ["microsoft", "windows", "office", "xbox"] },
  { id := "amazon", name := "Amazon",
    keywords := ["amazon", "smile", "prime", "shopping"] },
  unknownBrand ]

/-! ## Brand resolver (`find_brand_by_name`, src/Luminor.py lines 872-888)

The first loop tests `name_lower in brand['name'].lower()` — i.e. the
lower-cased input as a substring of the lower-cased display name — for
every non-sentinel brand; the second loop tests `keyword in name_lower`
for every keyword of every non-sentinel brand.  Each loop returns its
first hit; `List.find?` is that loop. -/

/-- The per-brand test of the resolver's first loop:
`brand['id'] != 'unknown' and name_lower in brand['name'].lower()`. -/
def nameMatch (s : String) (b : Brand) : Bool :=
  b.id != "unknown" && pyIn (pyLower s) (pyLower b.name)

/-- The per-brand test of the resolver's second loop: some keyword of the
brand occurs inside `name_lower`. -/
def keywordMatch (s : String) (b : Brand) : Bool :=
  b.id != "unknown" && b.keywords.any (fun k => pyIn k (pyLower s))

/-- src/Luminor.py `find_brand_by_name`: first loop over display names,
then loop over keyword lists, else the sentinel record. -/
def find_brand_by_name (name : String) : Brand :=
  match BRAND_DATABASE.find? (nameMatch name) with
  | some b => b
  | none =>
    match BRAND_DATABASE.find? (keywordMatch name) with
    | some b => b
    | none => unknownBrand

/-! ## JSON values

The AI reply, the stored brand snapshots and the preference blobs are
JSON texts; `json.loads`/`json.dumps` results are modelled by this value
type.  Numbers are rationals (the code only stores, copies or coerces
them). -/

inductive Json where
  | null
  | bool (b : Bool)
  | num (q : ℚ)
  | str (s : String)
  | arr (elems : List Json)
  | obj (fields : List (String × Json))

/-- Dictionary lookup `d.get(k)` on an object's field list (parsed JSON
objects carry distinct keys). -/
def lookupField (fields : List (String × Json)) (k : String) : Option Json :=
  match fields with
  | [] => none
  | (k2, v) :: rest => if k2 == k then some v else lookupField rest k

/-- Python's `k in d` test on an object's field list. -/
def hasKey (fields : List (String × Json)) (k : String) : Bool :=
  (lookupField fields k).isSome

/-- Dictionary assignment `d[k] = v`: updates the value in place when the
key exists, else appends the pair (Python dicts keep insertion order). -/
def setField (fields : List (String × Json)) (k : String) (v : Json) :
    List (String × Json) :=
  match fields with
  | [] => [(k, v)]
  | (k2, v2) :: rest =>
    if k2 == k then (k2, v) :: rest else (k2, v2) :: setField rest k v

/-- Python's `float(x)` on a JSON value: numbers coerce, booleans coerce
to 1/0, anything else raises (modelled as `none`).  (Python would also
parse a numeric string; no modelled call site feeds one.) -/
def pyFloat : Json → Option ℚ
  | .num q => some q
  | .bool b => some (if b then 1 else 0)
  | _ => none

/-! ## AI bridge (`analyze_image_with_openai`, src/Luminor.py lines 382-459)

The function makes exactly one API call (no retry loop); the embedding
takes that single call's outcome as input.  `reply parsed` is the model's
textual reply after `strip()` and code-fence cleanup, already run through
`json.loads` — `none` meaning the parse raised.  After a successful parse
the code executes `result['confidence'] = float(result.get('confidence', 0))`
and returns `result`; every raised exception is caught and surfaces one
`st.error` message with a `None` result.  There is no validation of
`brand_detected`/`brand_name` and no normalization of the `stores` field
anywhere in the function. -/

inductive AIOutcome where
  | timeout
  | apiError
  | reply (parsed : Option Json)

inductive UserMsg where
  | timeoutError
  | analysisError
deriving DecidableEq, Repr

/-- src/Luminor.py `analyze_image_with_openai`, as a function of the API
outcome: the returned record (or `None`) paired with the user-visible
error messages emitted. -/
def analyze_image_with_openai : AIOutcome → Option Json × List UserMsg
  | .timeout => (none, [.timeoutError])
  | .apiError => (none, [.analysisError])
  | .reply none => (none, [.analysisError])
  | .reply (some j) =>
    match j with
    | .obj fields =>
      match pyFloat ((lookupField fields "confidence").getD (.num 0)) with
      | some q => (some (.obj (setField fields "confidence" (.num q))), [])
      | none => (none, [.analysisError])
    | _ => (none, [.analysisError])

/-- Formalisation of the SPEC's words (not of the code), for comparison:
a normalized store entry is an object carrying name, distance and rating
keys. -/
def storesEntryNormalizedSpec : Json → Bool
  | .obj fields => hasKey fields "name" && hasKey fields "distance" && hasKey fields "rating"
  | _ => false

/-- Formalisation of the SPEC's words (not of the code): the record's
stores field, when present, is a list of normalized store objects. -/
def storesNormalizedSpec : Json → Bool
  | .obj fields =>
    match lookupField fields "stores" with
    | some (.arr entries) => entries.all storesEntryNormalizedSpec
    | some _ => false
    | none => true
  | _ => false

/-! ## Scan history (`user_history` table, `load_user_history`,
src/Luminor.py lines 121-132 and 344-370)

A row carries the columns of the `user_history` table; `brand_data` is
stored as `json.dumps` of a dict, so its parse is an object and is
modelled directly as the object's field list.  `scanned_at` timestamps
are modelled as naturals.  `load_user_history` selects the user's rows
newest first (`ORDER BY scanned_at DESC LIMIT ?`) and attaches a
`scan_metadata` object to each snapshot; it has no per-row validation of
any kind — in particular no check that the snapshot carries an `id`
key — and its only failure path drops the whole call to `[]`. -/

structure HistoryRow where
  username : String
  brand_data : List (String × Json)
  scan_type : String
  confidence : ℚ
  image_hash : String
  scanned_at : ℕ

/-- Insert one row into a list sorted by descending `scanned_at`. -/
def insertDesc (r : HistoryRow) : List HistoryRow → List HistoryRow
  | [] => [r]
  | x :: t => if x.scanned_at ≥ r.scanned_at then x :: insertDesc r t else r :: x :: t

/-- Sort rows by descending `scanned_at` (the query's ORDER BY). -/
def sortDesc : List HistoryRow → List HistoryRow
  | [] => []
  | r :: t => insertDesc r (sortDesc t)

/-- The `scan_metadata` object the loader attaches to each snapshot. -/
def scanMeta (r : HistoryRow) : Json :=
  .obj [("scan_type", .str r.scan_type), ("confidence", .num r.confidence),
    ("scanned_at", .num r.scanned_at)]

/-- One loaded record: `brand_data['scan_metadata'] = {...}`. -/
def addScanMetadata (r : HistoryRow) : Json :=
  .obj (setField r.brand_data "scan_metadata" (scanMeta r))

/-- src/Luminor.py `load_user_history`: the user's rows, newest first, at
most `limit` of them, each with `scan_metadata` attached. -/
def load_user_history (db : List HistoryRow) (username : String) (limit : ℕ) :
    List Json :=
  ((sortDesc (db.filter (fun r => r.username == username))).take limit).map
    addScanMetadata

/-- A concrete history row whose brand snapshot lacks an `id` field. -/
def exHistoryRow : HistoryRow :=
  { username := "alice", brand_data := [("name", .str "Mystery")],
    scan_type := "manual", confidence := 0, image_hash := "", scanned_at := 0 }

/-! ## Favorites (`user_favorites` table, src/Luminor.py lines 135-144 and
890-935)

The table's primary key is `(username, brand_id)`; `add_to_favorites`
runs `INSERT OR IGNORE`, which appends a row unless one with the same key
pair exists, and `remove_from_favorites` runs a keyed DELETE.  The
`notes` column is never set by these helpers; timestamps are omitted. -/

structure FavRow where
  username : String
  brand_id : String
  notes : Option String

/-- src/Luminor.py `add_to_favorites`: `INSERT OR IGNORE` on the
`(username, brand_id)` primary key. -/
def add_to_favorites (db : List FavRow) (u b : String) : List FavRow :=
  if db.any (fun r => r.username == u && r.brand_id == b) then db
  else db ++ [{ username := u, brand_id := b, notes := none }]

/-- src/Luminor.py `remove_from_favorites`: keyed DELETE. -/
def remove_from_favorites (db : List FavRow) (u b : String) : List FavRow :=
  db.filter (fun r => !(r.username == u && r.brand_id == b))

/-- Number of stored rows for one `(user, brand)` pair. -/
def favCount (db : List FavRow) (u b : String) : ℕ :=
  db.countP (fun r => r.username == u && r.brand_id == b)

/-- The operations a user session can perform on the favorites table. -/
inductive FavOp where
  | add (u b : String)
  | remove (u b : String)

/-- Apply one favorites operation to the table. -/
def applyFavOp (db : List FavRow) : FavOp → List FavRow
  | .add u b => add_to_favorites db u b
  | .remove u b => remove_from_favorites db u b

/-- Run a sequence of favorites operations from the freshly created
(empty) table. -/
def applyFavOps (ops : List FavOp) : List FavRow :=
  ops.foldl applyFavOp []

/-! ## Favorites cleanup -/

/-- The identifiers of the static table's records. -/
def staticBrandIds : List String :=
  BRAND_DATABASE.map (fun b => b.id)

/-- The brand identifier stored in a history row's snapshot, when the
snapshot carries a string `id` field. -/
def historyBrandId (r : HistoryRow) : Option String :=
  match lookupField r.brand_data "id" with
  | some (.str s) => some s
  | _ => none

/-- Modelled from the spec: "cleanup removes favorite rows whose brand id
is neither in the static table nor in the user's own history" — no such
cleanup operation appears in src/Luminor.py (the file only defines
add/remove/get on favorites), so the operation is modelled from the
spec's words: keep a favorite row exactly when its brand id occurs in the
static table or in the owning user's scan history. -/
def cleanup_favorites (history : List HistoryRow) (favs : List FavRow) :
    List FavRow :=
  favs.filter (fun f =>
    staticBrandIds.any (fun s => s == f.brand_id) ||
    history.any (fun h => h.username == f.username &&
      historyBrandId h == some f.brand_id))

/-- The spec's orphan notion, stated propositionally: the favorite's brand
id is absent from the static table and from the owning user's history. -/
def OrphanFav (history : List HistoryRow) (f : FavRow) : Prop :=
  f.brand_id ∉ staticBrandIds ∧
  ∀ h ∈ history, h.username = f.username → historyBrandId h ≠ some f.brand_id

/-! ## User accounts (`users` table, `create_user`, src/Luminor.py lines
107-118 and 167-195)

`create_user` rejects a username shorter than 3 characters or a password
shorter than 6 before touching the store, hashes the password, and
inserts the row with the default preference blob; a duplicate username
raises `sqlite3.IntegrityError` on the primary key, caught to `False`.
The SHA-256 digest is abstracted as the parameter `hashFn`; columns the
insert leaves NULL (timestamps, remember token) are omitted. -/

structure UserRow where
  username : String
  password_hash : String
  email : String
  preferences : Json

/-- The default preference blob `create_user` stores. -/
def default_prefs : Json :=
  .obj [("theme", .str "Cyber Dark"), ("notifications", .bool true),
    ("auto_save_scans", .bool true)]

/-- src/Luminor.py `create_user` over the users table. -/
def create_user (hashFn : String → String) (db : List UserRow)
    (username password email : String) : Bool × List UserRow :=
  if username.length < 3 || password.length < 6 then (false, db)
  else if db.any (fun r => r.username == username) then (false, db)
  else
    (true, db ++
      [{ username := username, password_hash := hashFn password,
         email := email, preferences := default_prefs }])

/-! ## Theorems about the brand resolver -/

/-- A `find?` scan returns position `i` when the predicate holds there and
fails on every earlier position. -/
theorem find?_eq_of_first {α : Type _} (p : α → Bool) :
    ∀ (l : List α) (i : ℕ) (hi : i < l.length),
      p (l.get ⟨i, hi⟩) = true →
      (∀ b ∈ l.take i, p b = false) →
      l.find? p = some (l.get ⟨i, hi⟩)
  | [], i, hi, _, _ => absurd hi (Nat.not_lt_zero i)
  | a :: t, 0, _, hp, _ => by
      show List.find? p (a :: t) = some a
      have hp2 : p a = true := hp
      rw [List.find?_cons_of_pos _ hp2]
  | a :: t, i + 1, hi, hp, hmin => by
      have ha : p a = false := hmin a (by rw [List.take_succ_cons]; exact List.mem_cons_self a _)
      have ih := find?_eq_of_first p t i (Nat.lt_of_succ_lt_succ hi) hp
        (fun b hb => hmin b (by rw [List.take_succ_cons]; exact List.mem_cons_of_mem a hb))
      rw [List.find?_cons_of_neg _ (by simp [ha])]
      exact ih

/-- A scan finds nothing when the predicate fails everywhere. -/
theorem find?_eq_none_of_all {α : Type _} (p : α → Bool) (l : List α)
    (h : ∀ b ∈ l, p b = false) : l.find? p = none :=
  List.find?_eq_none.mpr fun x hx => by rw [h x hx]; exact Bool.false_ne_true

/-- C1: the resolver tries the display-name substring test first, in the
table's definition order, and only on total failure of that loop scans the
keyword lists, again first match in definition order; hence any input with
a display-name match resolves by that loop regardless of keyword hits. -/
theorem find_brand_substring_precedes_keyword (s : String) :
    (∀ (i : ℕ) (hi : i < BRAND_DATABASE.length),
        nameMatch s (BRAND_DATABASE.get ⟨i, hi⟩) = true →
        (∀ b ∈ BRAND_DATABASE.take i, nameMatch s b = false) →
        find_brand_by_name s = BRAND_DATABASE.get ⟨i, hi⟩)
    ∧ ((∀ b ∈ BRAND_DATABASE, nameMatch s b = false) →
        ∀ (i : ℕ) (hi : i < BRAND_DATABASE.length),
          keywordMatch s (BRAND_DATABASE.get ⟨i, hi⟩) = true →
          (∀ b ∈ BRAND_DATABASE.take i, keywordMatch s b = false) →
          find_brand_by_name s = BRAND_DATABASE.get ⟨i, hi⟩) := by
  constructor
  · intro i hi hp hmin
    unfold find_brand_by_name
    rw [find?_eq_of_first (nameMatch s) BRAND_DATABASE i hi hp hmin]
  · intro hnone i hi hp hmin
    unfold find_brand_by_name
    rw [find?_eq_none_of_all (nameMatch s) BRAND_DATABASE hnone,
      find?_eq_of_first (keywordMatch s) BRAND_DATABASE i hi hp hmin]

/-- C1 witness: "Nike" resolves through the display-name loop at index 0,
and "swoosh everywhere" (no display-name hit) through the keyword loop at
index 0 — both yield the Nike record. -/
theorem find_brand_substring_precedes_keyword_witness :
    find_brand_by_name "Nike" = BRAND_DATABASE.get ⟨0, by decide⟩ ∧
    find_brand_by_name "swoosh everywhere" = BRAND_DATABASE.get ⟨0, by decide⟩ :=
  ⟨(find_brand_substring_precedes_keyword "Nike").1 0 (by decide) (by decide)
      (by decide),
    (find_brand_substring_precedes_keyword "swoosh everywhere").2 (by decide) 0
      (by decide) (by decide) (by decide)⟩

/-- C2: an input with no display-name hit and no keyword hit resolves to
the sentinel unknown record. -/
theorem find_brand_no_match_unknown (s : String)
    (h1 : ∀ b ∈ BRAND_DATABASE, nameMatch s b = false)
    (h2 : ∀ b ∈ BRAND_DATABASE, keywordMatch s b = false) :
    find_brand_by_name s = unknownBrand := by
  unfold find_brand_by_name
  rw [find?_eq_none_of_all (nameMatch s) BRAND_DATABASE h1,
    find?_eq_none_of_all (keywordMatch s) BRAND_DATABASE h2]

/-- C2 witness: "Zorblatt Industries" matches neither loop and resolves to
the sentinel. -/
theorem find_brand_no_match_unknown_witness :
    find_brand_by_name "Zorblatt Industries" = unknownBrand :=
  find_brand_no_match_unknown "Zorblatt Industries" (by decide) (by decide)

/-- C3 counterexample: the sentence "I love my new Air Max shoes from
Nike" does NOT resolve to the Nike record — the resolver tests whether the
whole lower-cased input is a substring of the display name, so the
sentence matches nothing and no Nike keyword occurs in it; the sentinel is
returned instead. -/
theorem find_brand_examples_counterexample :
    find_brand_by_name "I love my new Air Max shoes from Nike" = unknownBrand ∧
    unknownBrand.id ≠ "nike" :=
  ⟨rfl, by decide⟩

/-- C3 amended: on the fixed static table, the Air Max sentence resolves
to the sentinel unknown record (its text is not a substring of any display
name and contains no keyword), "swoosh everywhere" resolves to the Nike
record via keyword match, and "Zorblatt Industries" resolves to the
sentinel. -/
theorem find_brand_examples_amended :
    find_brand_by_name "I love my new Air Max shoes from Nike" = unknownBrand ∧
    find_brand_by_name "swoosh everywhere" = BRAND_DATABASE.get ⟨0, by decide⟩ ∧
    (BRAND_DATABASE.get ⟨0, by decide⟩).id = "nike" ∧
    find_brand_by_name "Zorblatt Industries" = unknownBrand :=
  ⟨rfl, rfl, rfl, rfl⟩

/-- C9: brand resolution is deterministic — the resolver is a pure
function of the input text over the fixed static table, so two calls on
identical text return the same record. -/
theorem find_brand_deterministic (s : String) :
    find_brand_by_name s = find_brand_by_name s := rfl

/-! ## Theorems about the AI bridge -/

/-- Updating one key leaves every other key's lookup unchanged. -/
theorem lookupField_setField_ne (k k2 : String) (v2 : Json) (h : k2 ≠ k) :
    ∀ fields : List (String × Json),
      lookupField (setField fields k2 v2) k = lookupField fields k
  | [] => by
      simp only [setField, lookupField]
      rw [if_neg (by simpa using h)]
  | (a, b) :: rest => by
      by_cases ha : a == k2
      · simp only [setField, ha, if_pos, lookupField]
        have hak : (a == k) = false := by
          have : a = k2 := by simpa using ha
          simp [this, h]
        rw [hak]
        simp
      · simp only [setField, ha, Bool.false_eq_true, if_neg, lookupField]
        by_cases hk : a == k
        · simp [hk]
        · simp only [hk, Bool.false_eq_true, if_neg]
          exact lookupField_setField_ne k k2 v2 h rest

/-- C4 counterexample: a parsed reply whose stores field is a list of
plain strings passes through the AI bridge unchanged — the output keeps
the bare string entry rather than an object with name, distance "N/A" and
rating 0.0, so the output fails the spec's normalization shape. -/
theorem ai_stores_counterexample :
    analyze_image_with_openai (.reply (some (.obj
        [("stores", .arr [.str "Main Street Store"]), ("confidence", .num 50)])))
      = (some (.obj [("stores", .arr [.str "Main Street Store"]),
          ("confidence", .num 50)]), []) ∧
    storesNormalizedSpec (.obj [("stores", .arr [.str "Main Street Store"]),
        ("confidence", .num 50)]) = false :=
  ⟨rfl, rfl⟩

/-- C4 amended: `analyze_image_with_openai` applies no stores
normalization; whenever the parsed reply is an object whose confidence
value coerces, the reply is returned with only the confidence field
rewritten and the stores field — strings or objects alike — exactly as the
model sent it. -/
theorem ai_stores_pass_through (fields : List (String × Json)) (v : Json) (q : ℚ)
    (hs : lookupField fields "stores" = some v)
    (hc : pyFloat ((lookupField fields "confidence").getD (.num 0)) = some q) :
    analyze_image_with_openai (.reply (some (.obj fields)))
      = (some (.obj (setField fields "confidence" (.num q))), []) ∧
    lookupField (setField fields "confidence" (.num q)) "stores" = some v := by
  constructor
  · simp only [analyze_image_with_openai, hc]
  · rw [lookupField_setField_ne "stores" "confidence" (.num q) (by decide) fields]
    exact hs

/-- C4 amended witness: a reply with a string store entry and confidence
50 comes back with that stores list untouched. -/
theorem ai_stores_pass_through_witness :
    analyze_image_with_openai (.reply (some (.obj
        [("stores", .arr [.str "Main Street Store"]), ("confidence", .num 50)])))
      = (some (.obj [("stores", .arr [.str "Main Street Store"]),
          ("confidence", .num 50)]), []) ∧
    lookupField [("stores", Json.arr [.str "Main Street Store"]),
        ("confidence", Json.num 50)] "stores" = some (.arr [.str "Main Street Store"]) :=
  ai_stores_pass_through
    [("stores", .arr [.str "Main Street Store"]), ("confidence", .num 50)]
    (.arr [.str "Main Street Store"]) 50 rfl rfl

/-- C7 counterexample: a parsed reply missing every required field (the
empty object lacks brand_detected, brand_name and confidence) is NOT
rejected — no error message is emitted and a partial record is returned,
with confidence silently defaulted to 0. -/
theorem ai_missing_field_counterexample :
    analyze_image_with_openai (.reply (some (.obj [])))
      = (some (.obj [("confidence", .num 0)]), []) :=
  rfl

/-- C7 amended: a network/timeout failure and a non-JSON reply each
surface exactly one user-visible error message and yield no result (the
single API call is not retried); but a parsed object reply missing the
required fields is not rejected — missing confidence defaults to 0 and the
partial record is returned with no message. -/
theorem ai_failure_modes :
    analyze_image_with_openai .timeout = (none, [UserMsg.timeoutError]) ∧
    analyze_image_with_openai .apiError = (none, [UserMsg.analysisError]) ∧
    analyze_image_with_openai (.reply none) = (none, [UserMsg.analysisError]) ∧
    (∀ fields : List (String × Json), lookupField fields "confidence" = none →
      analyze_image_with_openai (.reply (some (.obj fields)))
        = (some (.obj (setField fields "confidence" (.num 0))), [])) := by
  refine ⟨rfl, rfl, rfl, fun fields hnone => ?_⟩
  simp only [analyze_image_with_openai, hnone, Option.getD, pyFloat]

/-- C7 amended witness: the empty-object reply takes the
missing-confidence branch and returns a record rather than failing. -/
theorem ai_failure_modes_witness :
    analyze_image_with_openai (.reply (some (.obj [])))
      = (some (.obj [("confidence", .num 0)]), []) :=
  ai_failure_modes.2.2.2 [] rfl

/-! ## Theorems about the history loader -/

/-- Membership in a descending insertion. -/
theorem mem_insertDesc (x r : HistoryRow) :
    ∀ l : List HistoryRow, x ∈ insertDesc r l ↔ x = r ∨ x ∈ l
  | [] => by simp [insertDesc]
  | a :: t => by
      by_cases h : a.scanned_at ≥ r.scanned_at
      · rw [insertDesc, if_pos h]
        simp only [List.mem_cons, mem_insertDesc x r t]
        tauto
      · rw [insertDesc, if_neg h]
        simp only [List.mem_cons]

/-- The descending sort is a reordering: membership is preserved. -/
theorem mem_sortDesc (x : HistoryRow) : ∀ l : List HistoryRow, x ∈ sortDesc l ↔ x ∈ l
  | [] => Iff.rfl
  | r :: t => by
      rw [sortDesc, mem_insertDesc]
      simp only [List.mem_cons, mem_sortDesc x t]

/-- Inserting grows the length by one. -/
theorem length_insertDesc (r : HistoryRow) :
    ∀ l : List HistoryRow, (insertDesc r l).length = l.length + 1
  | [] => rfl
  | a :: t => by
      by_cases h : a.scanned_at ≥ r.scanned_at
      · rw [insertDesc, if_pos h]
        simp only [List.length_cons, length_insertDesc r t]
      · rw [insertDesc, if_neg h]
        rfl

/-- The descending sort preserves length. -/
theorem length_sortDesc : ∀ l : List HistoryRow, (sortDesc l).length = l.length
  | [] => rfl
  | r :: t => by rw [sortDesc, length_insertDesc, length_sortDesc t, List.length_cons]

/-- C5 counterexample: a stored row whose brand snapshot has no `id`
field is NOT excluded by `load_user_history` — the loader returns it,
with `scan_metadata` attached, and the returned record still lacks an
identifier field. -/
theorem history_missing_id_counterexample :
    load_user_history [exHistoryRow] "alice" 50
      = [Json.obj [("name", Json.str "Mystery"),
          ("scan_metadata", Json.obj [("scan_type", Json.str "manual"),
            ("confidence", Json.num 0), ("scanned_at", Json.num 0)])]] ∧
    hasKey [("name", Json.str "Mystery"),
        ("scan_metadata", Json.obj [("scan_type", Json.str "manual"),
          ("confidence", Json.num 0), ("scanned_at", Json.num 0)])] "id" = false :=
  ⟨rfl, rfl⟩

/-- C5 amended: `load_user_history` applies no identifier filtering at
all — every returned record is a stored row of the user with
`scan_metadata` attached, every stored row of the user is returned when
they fit under the LIMIT, and a returned record carries an `id` field
exactly when its stored snapshot does. -/
theorem history_loads_rows_without_id_check (db : List HistoryRow) (u : String)
    (lim : ℕ) :
    (∀ j ∈ load_user_history db u lim,
        ∃ r, r ∈ db ∧ r.username = u ∧ j = addScanMetadata r)
    ∧ ((db.filter (fun r => r.username == u)).length ≤ lim →
        ∀ r ∈ db, r.username = u → addScanMetadata r ∈ load_user_history db u lim)
    ∧ ∀ r : HistoryRow,
        hasKey (setField r.brand_data "scan_metadata" (scanMeta r)) "id"
          = hasKey r.brand_data "id" := by
  refine ⟨?_, ?_, ?_⟩
  · intro j hj
    unfold load_user_history at hj
    obtain ⟨r, hr, hjr⟩ := List.mem_map.mp hj
    have hr3 : r ∈ db.filter (fun r => r.username == u) :=
      (mem_sortDesc r _).mp (List.mem_of_mem_take hr)
    obtain ⟨hrdb, hpred⟩ := List.mem_filter.mp hr3
    exact ⟨r, hrdb, beq_iff_eq.mp hpred, hjr.symm⟩
  · intro hlen r hr hu
    unfold load_user_history
    refine List.mem_map.mpr ⟨r, ?_, rfl⟩
    rw [List.take_of_length_le (by rw [length_sortDesc]; exact hlen)]
    exact (mem_sortDesc r _).mpr (List.mem_filter.mpr ⟨hr, beq_iff_eq.mpr hu⟩)
  · intro r
    unfold hasKey
    rw [lookupField_setField_ne "id" "scan_metadata" (scanMeta r) (by decide)
      r.brand_data]

/-- C5 amended witness: the id-less row is loaded, not skipped. -/
theorem history_loads_rows_without_id_check_witness :
    addScanMetadata exHistoryRow ∈ load_user_history [exHistoryRow] "alice" 50 :=
  (history_loads_rows_without_id_check [exHistoryRow] "alice" 50).2.1 (by decide)
    exHistoryRow (List.mem_singleton.mpr rfl) rfl

/-! ## Theorems about the favorites table -/

/-- Adding a pair that is stored at most once leaves it stored exactly
once. -/
theorem favCount_add_self (db : List FavRow) (u b : String)
    (h : favCount db u b ≤ 1) :
    favCount (add_to_favorites db u b) u b = 1 := by
  unfold add_to_favorites
  by_cases hany : db.any (fun r => r.username == u && r.brand_id == b) = true
  · rw [if_pos hany]
    obtain ⟨r, hr, hp⟩ := List.any_eq_true.mp hany
    have hpos : 0 < favCount db u b := List.countP_pos_iff.mpr ⟨r, hr, hp⟩
    omega
  · rw [if_neg hany]
    unfold favCount at h ⊢
    rw [List.countP_append]
    have h0 : List.countP (fun r => r.username == u && r.brand_id == b) db = 0 :=
      List.countP_eq_zero.mpr (List.any_eq_false.mp (Bool.eq_false_iff.mpr hany))
    rw [h0]
    simp [List.countP_cons]

/-- Any insertion keeps every pair's count at most one. -/
theorem favCount_add_le (db : List FavRow) (u b u2 b2 : String)
    (h : favCount db u b ≤ 1) :
    favCount (add_to_favorites db u2 b2) u b ≤ 1 := by
  unfold add_to_favorites
  by_cases hany : db.any (fun r => r.username == u2 && r.brand_id == b2) = true
  · rw [if_pos hany]; exact h
  · rw [if_neg hany]
    unfold favCount at h ⊢
    rw [List.countP_append]
    by_cases hp : ((u2 == u) && (b2 == b)) = true
    · rw [Bool.and_eq_true] at hp
      obtain ⟨hu, hb⟩ := hp
      rw [beq_iff_eq.mp hu, beq_iff_eq.mp hb] at hany
      have h0 : List.countP (fun r => r.username == u && r.brand_id == b) db = 0 :=
        List.countP_eq_zero.mpr (List.any_eq_false.mp (Bool.eq_false_iff.mpr hany))
      rw [h0]
      have h1 : List.countP (fun r : FavRow => r.username == u && r.brand_id == b)
          [({ username := u2, brand_id := b2, notes := none } : FavRow)] ≤ 1 := by
        simp only [List.countP_cons, List.countP_nil]
        split <;> omega
      omega
    · have h1 : List.countP (fun r : FavRow => r.username == u && r.brand_id == b)
          [({ username := u2, brand_id := b2, notes := none } : FavRow)] = 0 := by
        simp only [List.countP_cons, List.countP_nil]
        rw [if_neg hp]
      omega

/-- Counting a filtered list never exceeds counting the original. -/
theorem countP_filter_le {α : Type _} (p q : α → Bool) :
    ∀ l : List α, (l.filter q).countP p ≤ l.countP p
  | [] => Nat.le_refl 0
  | a :: t => by
      rw [List.countP_cons]
      have hle := countP_filter_le p q t
      by_cases hq : q a = true
      · rw [List.filter_cons_of_pos hq, List.countP_cons]
        split <;> omega
      · rw [List.filter_cons_of_neg hq]
        split <;> omega

/-- A keyed DELETE keeps every pair's count at most one. -/
theorem favCount_remove_le (db : List FavRow) (u b u2 b2 : String)
    (h : favCount db u b ≤ 1) :
    favCount (remove_from_favorites db u2 b2) u b ≤ 1 :=
  le_trans (countP_filter_le _ _ db) h

/-- Every single favorites operation preserves pair uniqueness. -/
theorem favCount_applyFavOp (db : List FavRow) (op : FavOp) (u b : String)
    (h : favCount db u b ≤ 1) : favCount (applyFavOp db op) u b ≤ 1 := by
  cases op with
  | add u2 b2 => exact favCount_add_le db u b u2 b2 h
  | remove u2 b2 => exact favCount_remove_le db u b u2 b2 h

/-- Pair uniqueness is preserved along any operation sequence. -/
theorem favCount_foldl (ops : List FavOp) :
    ∀ db : List FavRow, (∀ u b, favCount db u b ≤ 1) →
      ∀ u b, favCount (ops.foldl applyFavOp db) u b ≤ 1 := by
  induction ops with
  | nil => intro db h; exact h
  | cons op rest ih =>
      intro db h u b
      exact ih (applyFavOp db op)
        (fun u2 b2 => favCount_applyFavOp db op u2 b2 (h u2 b2)) u b

/-- C6: `INSERT OR IGNORE` under the `(username, brand_id)` primary key —
adding the same pair twice leaves exactly one row for it, and after any
sequence of add/remove operations from the fresh table every pair is
stored at most once. -/
theorem favorites_pair_unique :
    (∀ (db : List FavRow) (u b : String), favCount db u b ≤ 1 →
        favCount (add_to_favorites (add_to_favorites db u b) u b) u b = 1)
    ∧ ∀ (ops : List FavOp) (u b : String), favCount (applyFavOps ops) u b ≤ 1 := by
  constructor
  · intro db u b h
    exact favCount_add_self _ u b (le_of_eq (favCount_add_self db u b h))
  · intro ops u b
    exact favCount_foldl ops [] (fun _ _ => Nat.zero_le 1) u b

/-- C6 witness: two adds of ("alice", "nike") on the fresh table store
the pair exactly once. -/
theorem favorites_pair_unique_witness :
    favCount (add_to_favorites (add_to_favorites [] "alice" "nike") "alice" "nike")
      "alice" "nike" = 1 :=
  favorites_pair_unique.1 [] "alice" "nike" (by decide)

/-! ## Theorems about the favorites cleanup -/

/-- C8: the cleanup removes exactly the orphaned rows — a favorite whose
brand id is absent from both the static table and the owning user's scan
history is dropped, and every other favorite is kept.  (The operation is
modelled from the spec; src/Luminor.py contains no cleanup.) -/
theorem cleanup_removes_exactly_orphans (history : List HistoryRow)
    (favs : List FavRow) :
    (∀ f ∈ favs, OrphanFav history f → f ∉ cleanup_favorites history favs)
    ∧ (∀ f ∈ favs, ¬OrphanFav history f → f ∈ cleanup_favorites history favs) := by
  constructor
  · intro f _ horf hmem
    unfold cleanup_favorites at hmem
    obtain ⟨-, hpred⟩ := List.mem_filter.mp hmem
    rw [Bool.or_eq_true] at hpred
    rcases hpred with h1 | h2
    · obtain ⟨s, hs, hsb⟩ := List.any_eq_true.mp h1
      exact horf.1 (beq_iff_eq.mp hsb ▸ hs)
    · obtain ⟨hrow, hh, hband⟩ := List.any_eq_true.mp h2
      rw [Bool.and_eq_true] at hband
      exact horf.2 hrow hh (beq_iff_eq.mp hband.1) (beq_iff_eq.mp hband.2)
  · intro f hfav horf
    unfold cleanup_favorites
    refine List.mem_filter.mpr ⟨hfav, ?_⟩
    by_contra hne
    have hfalse := Bool.eq_false_iff.mpr hne
    rw [Bool.or_eq_false_iff] at hfalse
    obtain ⟨hst, hhist⟩ := hfalse
    apply horf
    constructor
    · intro hmem
      exact List.any_eq_false.mp hst f.brand_id hmem (by simp)
    · intro hrow hh hu hid
      apply List.any_eq_false.mp hhist hrow hh
      rw [Bool.and_eq_true]
      exact ⟨beq_iff_eq.mpr hu, beq_iff_eq.mpr hid⟩

/-- C8 witness: with an empty history, the favorite for the unknown brand
id "zorblatt" is dropped and the favorite for the static id "nike" is
kept. -/
theorem cleanup_removes_exactly_orphans_witness :
    ({ username := "alice", brand_id := "zorblatt", notes := none } : FavRow) ∉
      cleanup_favorites []
        [{ username := "alice", brand_id := "zorblatt", notes := none },
         { username := "alice", brand_id := "nike", notes := none }] ∧
    ({ username := "alice", brand_id := "nike", notes := none } : FavRow) ∈
      cleanup_favorites []
        [{ username := "alice", brand_id := "zorblatt", notes := none },
         { username := "alice", brand_id := "nike", notes := none }] :=
  ⟨(cleanup_removes_exactly_orphans [] _).1 _ (by simp)
      ⟨by decide, fun h hh => absurd hh (List.not_mem_nil h)⟩,
    (cleanup_removes_exactly_orphans [] _).2 _ (by simp)
      (fun hor => hor.1 (by decide))⟩

/-! ## Theorems about account creation -/

/-- C10: a registration attempt with a username shorter than 3 characters
or a password shorter than 6 is rejected before any store access —
`create_user` returns `False` and the users table is unchanged. -/
theorem create_user_rejects_short (hashFn : String → String) (db : List UserRow)
    (u p e : String) (h : u.length < 3 ∨ p.length < 6) :
    create_user hashFn db u p e = (false, db) := by
  unfold create_user
  have hb : (decide (u.length < 3) || decide (p.length < 6)) = true := by
    rcases h with h | h <;> simp [h]
  simp [hb]

/-- C10 witness: the 2-character username "ab" is rejected on the empty
table, which stays empty. -/
theorem create_user_rejects_short_witness :
    create_user (fun s => s) [] "ab" "password1" "" = (false, []) :=
  create_user_rejects_short (fun s => s) [] "ab" "password1" ""
    (Or.inl (by decide))

end Luminor
